import Mathlib

/-!
Verification of the weight/bias packing, tiling selection and dispatch sizing
of `tensorflow/lite/delegates/gpu/cl/kernels/conv_powervr.h` (`ConvPowerVR`).

Pure helper routines that the header calls but whose bodies live in other
files (`IntegralDivideRoundUp`, `AlignByN`, `RearrangeWeightsToOHWIOGroupI4O4`,
`CreateLinearStorage`, and the bodies of `GuessBestParams` / `GetGridSize`)
are modelled from the specification; everything else follows the header.
-/

/-- Modelled from the spec: `IntegralDivideRoundUp` (declared in `util.h`,
body outside the sources) is the ceiling division `ceil(n / d)` used for
channel-group counts. -/
def IntegralDivideRoundUp (n d : Nat) : Nat := (n + d - 1) / d

/-- Modelled from the spec: `AlignByN` (declared in `util.h`, body outside the
sources) rounds `n` up to the next multiple of `align`. -/
def AlignByN (n align : Nat) : Nat := IntegralDivideRoundUp n align * align

/-- Shallow embedding of `tflite::gpu::Tensor<OHWI, T>`: an
(OutputChannels, Height, Width, InputChannels) shape together with the
element lookup `data o y x i`. -/
structure TensorOHWI (α : Type) where
  o : Nat
  h : Nat
  w : Nat
  i : Nat
  data : Nat → Nat → Nat → Nat → α

/-- `src_depth = IntegralDivideRoundUp(weights.shape.i, 4)` from
`ConvPowerVR::UploadWeights`. -/
def srcDepthOf {α : Type} (t : TensorOHWI α) : Nat := IntegralDivideRoundUp t.i 4

/-- `dst_depth = IntegralDivideRoundUp(weights.shape.o, 4)` from
`ConvPowerVR::UploadWeights`. -/
def dstDepthOf {α : Type} (t : TensorOHWI α) : Nat := IntegralDivideRoundUp t.o 4

/-- `dst_depth_aligned = AlignByN(dst_depth, conv_params_.block_size.z)` from
`ConvPowerVR::UploadWeights`. -/
def dstDepthAligned {α : Type} (t : TensorOHWI α) (bz : Nat) : Nat :=
  AlignByN (dstDepthOf t) bz

/-- `elements_count = h * w * src_depth * dst_depth_aligned * 4` from
`ConvPowerVR::UploadWeights`. -/
def elementsCount {α : Type} (t : TensorOHWI α) (bz : Nat) : Nat :=
  t.h * t.w * srcDepthOf t * dstDepthAligned t bz * 4

/-- Modelled from the spec: one output-channel lane of the packed buffer.
The source element `(dch, y, x, sch)` with `sch = sg*4+il`, `dch = og*4+ol`
is copied when it is in range, and the lane is zero otherwise (zero fill for
the alignment padding and for partial channel groups). -/
def weightLane {α : Type} [Zero α] (t : TensorOHWI α) (y x sg og il ol : Nat) : α :=
  if sg * 4 + il < t.i ∧ og * 4 + ol < t.o then t.data (og * 4 + ol) y x (sg * 4 + il) else 0

/-- One packed element: a 4-wide pack of output-channel lanes. -/
def float4Pack {α : Type} [Zero α] (t : TensorOHWI α) (y x sg og il : Nat) :
    α × α × α × α :=
  (weightLane t y x sg og il 0, weightLane t y x sg og il 1,
   weightLane t y x sg og il 2, weightLane t y x sg og il 3)

/-- Modelled from the spec: `RearrangeWeightsToOHWIOGroupI4O4` (declared in
`util.h`, body outside the sources) fills the buffer of `elementsCount`
elements laid out as
`[H][W][InputChannelGroup][AlignedOutputChannelGroup][4 input lanes]`,
each element a 4-wide pack of output-channel lanes. -/
def RearrangeWeightsToOHWIOGroupI4O4 {α : Type} [Zero α] (t : TensorOHWI α)
    (bz : Nat) : List (α × α × α × α) :=
  List.ofFn (fun e : Fin (elementsCount t bz) =>
    float4Pack t
      (e.val / 4 / dstDepthAligned t bz / srcDepthOf t / t.w)
      (e.val / 4 / dstDepthAligned t bz / srcDepthOf t % t.w)
      (e.val / 4 / dstDepthAligned t bz % srcDepthOf t)
      (e.val / 4 % dstDepthAligned t bz)
      (e.val % 4))

/-- The flat element index of position `(y, x, sg, og, il)` in the packed
buffer layout `[H][W][InputChannelGroup][AlignedOutputChannelGroup][4 lanes]`. -/
def flatIndex {α : Type} (t : TensorOHWI α) (bz y x sg og il : Nat) : Nat :=
  (((y * t.w + x) * srcDepthOf t + sg) * dstDepthAligned t bz + og) * 4 + il

/-- Select lane `ol` of a packed 4-wide element. -/
def tuple4Get {α : Type} (p : α × α × α × α) (ol : Nat) : α :=
  match ol with
  | 0 => p.1
  | 1 => p.2.1
  | 2 => p.2.2.1
  | _ => p.2.2.2

/-- The scalar stored in the packed weight buffer at position
`(y, x, sg, og, il, ol)`. -/
def scalarAt {α : Type} [Zero α] (t : TensorOHWI α) (bz y x sg og il ol : Nat) : α :=
  tuple4Get ((RearrangeWeightsToOHWIOGroupI4O4 t bz).getD
    (flatIndex t bz y x sg og il) (0, 0, 0, 0)) ol

/-- `CalculationsPrecision` from `precision.h` as consumed by the header. -/
inductive CalculationsPrecision where
  | F32
  | F32_F16
  | F16
deriving DecidableEq

/-- `DataType` values used by the header for the bias storage. -/
inductive DataType where
  | FLOAT32
  | FLOAT16
deriving DecidableEq

/-- `f32_weights = definition_.precision != CalculationsPrecision::F16` from
`ConvPowerVR::UploadWeights`. -/
def f32_weights (precision : CalculationsPrecision) : Bool :=
  decide (precision ≠ CalculationsPrecision.F16)

/-- `float4_size = f32_weights ? sizeof(float4) : sizeof(half4)` from
`ConvPowerVR::UploadWeights` (16 bytes for `float4`, 8 for `half4`). -/
def float4_size (f32w : Bool) : Nat := if f32w then 16 else 8

/-- `create_info.data_type` from `ConvPowerVR::UploadData`: `FLOAT16` exactly
when the calculation precision is `F16`, else `FLOAT32`. -/
def biasDataType (precision : CalculationsPrecision) : DataType :=
  if precision = CalculationsPrecision.F16 then DataType.FLOAT16 else DataType.FLOAT32

/-- Apply an element conversion (such as float-to-half rounding) to every
entry of a weight tensor; the shape is unchanged. -/
def mapTensor {α β : Type} (r : α → β) (t : TensorOHWI α) : TensorOHWI β :=
  { o := t.o, h := t.h, w := t.w, i := t.i,
    data := fun a b c d => r (t.data a b c d) }

/-- Apply an element conversion to each lane of a packed element. -/
def map4 {α β : Type} (r : α → β) (p : α × α × α × α) : β × β × β × β :=
  (r p.1, r p.2.1, r p.2.2.1, r p.2.2.2)

/-- Modelled from the spec: `CreateLinearStorage` (body outside the sources)
builds the linear bias buffer of `alignedSize` entries, one value per channel,
zero filled past the bias vector's own length. -/
def CreateLinearStorage {α : Type} [Zero α] (alignedSize biasLen : Nat)
    (bias : Nat → α) : List α :=
  List.ofFn (fun j : Fin alignedSize => if j.val < biasLen then bias j.val else 0)

/-- The bias buffer produced by `ConvPowerVR::UploadData`: the header sets
`create_info.aligned_size = weights.shape.o` and then calls
`CreateLinearStorage`. -/
def UploadDataBias {α : Type} [Zero α] (t : TensorOHWI α) (biasLen : Nat)
    (bias : Nat → α) : List α :=
  CreateLinearStorage t.o biasLen bias

/-- Outcome of an upload step, mirroring `Status` of `common/status.h` as the
header uses it: success or an allocation error propagated by
`RETURN_IF_ERROR`. -/
inductive UploadStatus where
  | ok
  | allocationError
deriving DecidableEq

/-- The observable buffer fields of a `ConvPowerVR` object touched by
`UploadData`: `weights_` and `biases_` (unset until assigned). -/
structure ConvPowerVRState (β γ : Type) where
  weights : Option β
  biases : Option γ
deriving DecidableEq

/-- `ConvPowerVR::UploadWeights` as a state transition: the allocator outcome
is `some buffer` on success and `none` on an allocation failure; the failure
is returned and the field is only assigned on success. -/
def UploadWeightsStep {β γ : Type} (wAlloc : Option β)
    (s : ConvPowerVRState β γ) : UploadStatus × ConvPowerVRState β γ :=
  match wAlloc with
  | none => (UploadStatus.allocationError, s)
  | some b => (UploadStatus.ok, { s with weights := some b })

/-- `ConvPowerVR::UploadData` as a state transition: first
`RETURN_IF_ERROR(UploadWeights(..))`, then the bias linear storage is created
through `RETURN_IF_ERROR(CreateLinearStorage(..))`. -/
def UploadDataStep {β γ : Type} (wAlloc : Option β) (bAlloc : Option γ)
    (s : ConvPowerVRState β γ) : UploadStatus × ConvPowerVRState β γ :=
  match UploadWeightsStep wAlloc s with
  | (UploadStatus.ok, s1) =>
    match bAlloc with
    | none => (UploadStatus.allocationError, s1)
    | some l => (UploadStatus.ok, { s1 with biases := some l })
  | (st, s1) => (st, s1)

/-- The `int3` triple used for block sizes, work-group sizes, launch orders
and grid sizes. -/
structure int3 where
  x : Nat
  y : Nat
  z : Nat
deriving DecidableEq

/-- `ConvPowerVR::WeightsUploadType` from the header. -/
inductive WeightsUploadType where
  | LOCAL_MEM_ASYNC_SUBGROUP
  | LOCAL_MEM_BY_THREADS
  | GLOBAL_MEM
deriving DecidableEq

/-- `ConvPowerVR::ConvParams` from the header. -/
structure ConvParams where
  block_size : int3
  work_group_size : int3
  work_group_launch_order : int3
  src_depth_loop_size : Nat
  weights_upload_type : WeightsUploadType
  x_kernel_is_1 : Bool
  y_kernel_is_1 : Bool
deriving DecidableEq

/-- The device capability facts consumed by the tiling selector, per the spec:
async-copy support, local-memory support, maximum work-group size, a
block-size budget, and the opaque preferred launch-order hint. -/
structure CLDevice where
  supportsAsyncWorkGroupCopy : Bool
  supportsLocalMemory : Bool
  maxWorkGroupSize : Nat
  blockBudget : Nat
  launchOrderHint : int3
deriving DecidableEq

/-- The slice of `OperationDef` the header consumes: the calculation
precision. -/
structure OperationDef where
  precision : CalculationsPrecision
deriving DecidableEq

/-- The slice of `Convolution2DAttributes` the selector consumes: weight
shape (whose spatial dims are the kernel size), strides and dilations. -/
structure Convolution2DAttributes where
  weightsO : Nat
  weightsH : Nat
  weightsW : Nat
  weightsI : Nat
  strideW : Nat
  strideH : Nat
  dilationW : Nat
  dilationH : Nat
deriving DecidableEq

/-- The slice of `FullyConnectedAttributes` the selector consumes: the weight
channel counts (the spatial kernel is 1x1). -/
structure FullyConnectedAttributes where
  weightsO : Nat
  weightsI : Nat
deriving DecidableEq

/-- Modelled from the spec: the body of `ConvPowerVR::GuessBestParams`
(device, definition, depths, 1x1 flags) is outside the sources. Per the spec
it deterministically derives the upload strategy from the capability, a block
size clamped to the device budget, a work-group size within the device
maximum, the launch-order hint, and an unroll factor from `src_depth`. -/
def GuessBestParams (device : CLDevice) (definition : OperationDef)
    (src_depth dst_depth : Nat) (x_kernel_is_1 y_kernel_is_1 : Bool) : ConvParams :=
  let upload :=
    if device.supportsAsyncWorkGroupCopy && decide (32 ≤ device.maxWorkGroupSize) then
      WeightsUploadType.LOCAL_MEM_ASYNC_SUBGROUP
    else if device.supportsLocalMemory then
      WeightsUploadType.LOCAL_MEM_BY_THREADS
    else
      WeightsUploadType.GLOBAL_MEM
  let bz : Nat := if 4 ≤ dst_depth then 4 else if 2 ≤ dst_depth then 2 else 1
  let raw : int3 := { x := 2, y := 1, z := bz }
  let blk : int3 :=
    if raw.x * raw.y * raw.z ≤ device.blockBudget then raw else { x := 1, y := 1, z := 1 }
  let wg : int3 :=
    if upload = WeightsUploadType.LOCAL_MEM_ASYNC_SUBGROUP then { x := 32, y := 1, z := 1 }
    else if 32 ≤ device.maxWorkGroupSize then { x := 8, y := 4, z := 1 }
    else { x := device.maxWorkGroupSize, y := 1, z := 1 }
  let loop : Nat := if src_depth % 4 = 0 then 4 else if src_depth % 2 = 0 then 2 else 1
  { block_size := blk, work_group_size := wg,
    work_group_launch_order := device.launchOrderHint,
    src_depth_loop_size := loop, weights_upload_type := upload,
    x_kernel_is_1 := x_kernel_is_1, y_kernel_is_1 := y_kernel_is_1 }

/-- The convolution overload of `GuessBestParams`: depths are channel counts
in 4-channel groups, and the 1x1 fast-path flags hold when the kernel, stride
and dilation of that axis are all 1 (spec, step 6). -/
def GuessBestParamsConv (device : CLDevice) (definition : OperationDef)
    (attr : Convolution2DAttributes) : ConvParams :=
  GuessBestParams device definition
    (IntegralDivideRoundUp attr.weightsI 4) (IntegralDivideRoundUp attr.weightsO 4)
    (decide (attr.weightsW = 1 ∧ attr.strideW = 1 ∧ attr.dilationW = 1))
    (decide (attr.weightsH = 1 ∧ attr.strideH = 1 ∧ attr.dilationH = 1))

/-- The fully-connected overload of `GuessBestParams`: a 1x1 convolution, so
both fast-path flags are set. -/
def GuessBestParamsFullyConnected (device : CLDevice) (definition : OperationDef)
    (attr : FullyConnectedAttributes) : ConvParams :=
  GuessBestParams device definition
    (IntegralDivideRoundUp attr.weightsI 4) (IntegralDivideRoundUp attr.weightsO 4)
    true true

/-- Modelled from the spec: the body of `ConvPowerVR::GetGridSize` is outside
the sources. Per the spec, each axis divides the output extent by the block
size (rounding up) and rounds the result up to a whole multiple of the
work-group size of that axis. -/
def GetGridSize (dst_width dst_height dst_depth : Nat) (p : ConvParams) : int3 :=
  { x := AlignByN (IntegralDivideRoundUp dst_width p.block_size.x) p.work_group_size.x,
    y := AlignByN (IntegralDivideRoundUp dst_height p.block_size.y) p.work_group_size.y,
    z := AlignByN (IntegralDivideRoundUp dst_depth p.block_size.z) p.work_group_size.z }

/-- Concrete weight tensor of shape O=8, H=3, W=3, I=4 (spec scenario). -/
def w8334 : TensorOHWI Int :=
  { o := 8, h := 3, w := 3, i := 4,
    data := fun o y x i => ((o * 9 + y * 3 + x) * 4 + i : Int) + 1 }

/-- Concrete weight tensor of shape O=5, H=1, W=1, I=4 (spec scenario). -/
def w5114 : TensorOHWI Int :=
  { o := 5, h := 1, w := 1, i := 4,
    data := fun o _ _ i => (o * 10 + i : Int) + 1 }

/-- Concrete bias vector used with `w5114`. -/
def bias5 : Nat → Int := fun j => (j : Int) + 100

/-- Concrete element conversion used as a stand-in precision rounding. -/
def negConv : Int → Int := fun v => -v

/-- Concrete tiling configuration used for dispatch-grid instances. -/
def demoParams : ConvParams :=
  { block_size := { x := 2, y := 2, z := 2 },
    work_group_size := { x := 4, y := 4, z := 2 },
    work_group_launch_order := { x := 0, y := 1, z := 2 },
    src_depth_loop_size := 1,
    weights_upload_type := WeightsUploadType.GLOBAL_MEM,
    x_kernel_is_1 := false, y_kernel_is_1 := false }

/-- Concrete device description used for selector instances. -/
def demoDevice : CLDevice :=
  { supportsAsyncWorkGroupCopy := true, supportsLocalMemory := true,
    maxWorkGroupSize := 256, blockBudget := 32,
    launchOrderHint := { x := 0, y := 1, z := 2 } }

/-- Concrete operation definition used for selector instances. -/
def demoDef : OperationDef := { precision := CalculationsPrecision.F32 }

/-- Concrete convolution attributes used for selector instances. -/
def demoConvAttr : Convolution2DAttributes :=
  { weightsO := 16, weightsH := 3, weightsW := 3, weightsI := 8,
    strideW := 1, strideH := 1, dilationW := 1, dilationH := 1 }

/-- Concrete fully-connected attributes used for selector instances. -/
def demoFCAttr : FullyConnectedAttributes := { weightsO := 16, weightsI := 8 }

/-- Rounding up with a positive alignment never decreases the value. -/
theorem le_roundUp (n a : Nat) (ha : 0 < a) : n ≤ IntegralDivideRoundUp n a * a := by
  unfold IntegralDivideRoundUp
  have h1 : a * ((n + a - 1) / a) + (n + a - 1) % a = n + a - 1 := Nat.div_add_mod _ a
  have h2 : (n + a - 1) % a < a := Nat.mod_lt _ ha
  have h3 : a * ((n + a - 1) / a) = ((n + a - 1) / a) * a := Nat.mul_comm _ _
  omega

/-- Rounding up with a positive alignment adds less than one full alignment. -/
theorem roundUp_lt (n a : Nat) (ha : 0 < a) : IntegralDivideRoundUp n a * a < n + a := by
  unfold IntegralDivideRoundUp
  have h1 : a * ((n + a - 1) / a) + (n + a - 1) % a = n + a - 1 := Nat.div_add_mod _ a
  have h3 : a * ((n + a - 1) / a) = ((n + a - 1) / a) * a := Nat.mul_comm _ _
  omega

/-- The rounded value is a multiple of the alignment. -/
theorem roundUp_mod (n a : Nat) : AlignByN n a % a = 0 := Nat.mul_mod_left _ _

/-- Decoding a mixed-radix digit: quotient and remainder recover the parts. -/
theorem mul_add_mod_div {X m r : Nat} (hr : r < m) :
    (X * m + r) % m = r ∧ (X * m + r) / m = X := by
  have hm : 0 < m := Nat.lt_of_le_of_lt (Nat.zero_le r) hr
  constructor
  · rw [Nat.mul_comm, Nat.mul_add_mod]; exact Nat.mod_eq_of_lt hr
  · rw [Nat.mul_comm, Nat.mul_add_div hm, Nat.div_eq_of_lt hr, Nat.add_zero]

/-- A mixed-radix digit stays below the radix product. -/
theorem encode_lt {a b A B : Nat} (ha : a < A) (hb : b < B) : a * B + b < A * B := by
  have h1 : a * B + b < (a + 1) * B := by
    rw [Nat.succ_mul]; exact Nat.add_lt_add_left hb _
  exact Nat.lt_of_lt_of_le h1 (Nat.mul_le_mul_right B ha)

/-- The packed buffer has exactly `elementsCount` elements. -/
theorem rearrange_length {α : Type} [Zero α] (t : TensorOHWI α) (bz : Nat) :
    (RearrangeWeightsToOHWIOGroupI4O4 t bz).length = elementsCount t bz := by
  unfold RearrangeWeightsToOHWIOGroupI4O4
  exact List.length_ofFn _

/-- The flat index of an in-range packed position is in range. -/
theorem flatIndex_lt {α : Type} (t : TensorOHWI α) (bz y x sg og il : Nat)
    (hy : y < t.h) (hx : x < t.w) (hsg : sg < srcDepthOf t)
    (hog : og < dstDepthAligned t bz) (hil : il < 4) :
    flatIndex t bz y x sg og il < elementsCount t bz := by
  unfold flatIndex elementsCount
  exact encode_lt (encode_lt (encode_lt (encode_lt hy hx) hsg) hog) hil

/-- Reading the packed buffer at the flat index of an in-range position
yields the 4-wide pack of output-channel lanes of that position. -/
theorem scalarAt_eq {α : Type} [Zero α] (t : TensorOHWI α) (bz y x sg og il ol : Nat)
    (hy : y < t.h) (hx : x < t.w) (hsg : sg < srcDepthOf t)
    (hog : og < dstDepthAligned t bz) (hil : il < 4) :
    scalarAt t bz y x sg og il ol = tuple4Get (float4Pack t y x sg og il) ol := by
  have hlt : flatIndex t bz y x sg og il < (RearrangeWeightsToOHWIOGroupI4O4 t bz).length := by
    rw [rearrange_length]
    exact flatIndex_lt t bz y x sg og il hy hx hsg hog hil
  unfold scalarAt
  rw [List.getD_eq_getElem _ _ hlt]
  unfold RearrangeWeightsToOHWIOGroupI4O4
  rw [List.getElem_ofFn]
  have e1 := mul_add_mod_div (X := ((y * t.w + x) * srcDepthOf t + sg) * dstDepthAligned t bz + og) hil
  have e2 := mul_add_mod_div (X := (y * t.w + x) * srcDepthOf t + sg) hog
  have e3 := mul_add_mod_div (X := y * t.w + x) hsg
  have e4 := mul_add_mod_div (X := y) hx
  show tuple4Get (float4Pack t _ _ _ _ _) ol = _
  rw [show (⟨flatIndex t bz y x sg og il, by simpa [rearrange_length] using hlt⟩ :
        Fin (elementsCount t bz)).val = flatIndex t bz y x sg og il from rfl]
  unfold flatIndex
  rw [e1.1, e1.2, e2.1, e2.2, e3.1, e3.2, e4.1, e4.2]

/-- Picking lane `ol < 4` of a packed element is the corresponding
`weightLane`. -/
theorem tuple4Get_float4Pack {α : Type} [Zero α] (t : TensorOHWI α)
    (y x sg og il ol : Nat) (hol : ol < 4) :
    tuple4Get (float4Pack t y x sg og il) ol = weightLane t y x sg og il ol := by
  have h : ol = 0 ∨ ol = 1 ∨ ol = 2 ∨ ol = 3 := by omega
  rcases h with rfl | rfl | rfl | rfl <;> rfl

/-- Element conversions that preserve zero commute with `weightLane`. -/
theorem weightLane_map {α β : Type} [Zero α] [Zero β] (r : α → β) (hr : r 0 = 0)
    (t : TensorOHWI α) (y x sg og il ol : Nat) :
    weightLane (mapTensor r t) y x sg og il ol = r (weightLane t y x sg og il ol) := by
  unfold weightLane mapTensor
  by_cases hc : sg * 4 + il < t.i ∧ og * 4 + ol < t.o
  · simp [hc]
  · simp [hc, hr]

/-- C1: for every weight tensor and every tiling config with a positive
output-channel block size, `UploadWeights` computes `srcDepth = ceil(I/4)`
and `dstDepth = ceil(O/4)` (characterized by the two-sided bounds),
`alignedDstDepth = roundUp(dstDepth, blockSize.z)` (characterized by
monotonicity, divisibility and minimality), with `alignedDstDepth >= dstDepth`,
and the packed buffer has exactly `H * W * srcDepth * alignedDstDepth * 4`
elements. -/
theorem claim1_upload_weights_sizes {α : Type} [Zero α] (t : TensorOHWI α)
    (bz : Nat) (hbz : 0 < bz) :
    (t.i ≤ srcDepthOf t * 4 ∧ srcDepthOf t * 4 < t.i + 4)
    ∧ (t.o ≤ dstDepthOf t * 4 ∧ dstDepthOf t * 4 < t.o + 4)
    ∧ dstDepthOf t ≤ dstDepthAligned t bz
    ∧ dstDepthAligned t bz % bz = 0
    ∧ dstDepthAligned t bz < dstDepthOf t + bz
    ∧ (RearrangeWeightsToOHWIOGroupI4O4 t bz).length
        = t.h * t.w * srcDepthOf t * dstDepthAligned t bz * 4 := by
  refine ⟨⟨?_, ?_⟩, ⟨?_, ?_⟩, ?_, ?_, ?_, ?_⟩
  · exact le_roundUp t.i 4 (by omega)
  · unfold srcDepthOf IntegralDivideRoundUp; omega
  · exact le_roundUp t.o 4 (by omega)
  · unfold dstDepthOf IntegralDivideRoundUp; omega
  · exact le_roundUp (dstDepthOf t) bz hbz
  · exact roundUp_mod (dstDepthOf t) bz
  · exact roundUp_lt (dstDepthOf t) bz hbz
  · exact rearrange_length t bz

/-- Witness for C1 at the concrete tensor `w5114` and block size 3. -/
theorem claim1_witness :
    0 < 3
    ∧ (RearrangeWeightsToOHWIOGroupI4O4 w5114 3).length
        = w5114.h * w5114.w * srcDepthOf w5114 * dstDepthAligned w5114 3 * 4 :=
  ⟨by decide, (claim1_upload_weights_sizes w5114 3 (by decide)).2.2.2.2.2⟩

/-- C2: packing the same weight tensor after an element conversion that
preserves zero (the reduced-precision rounding) yields exactly the lane-wise
converted buffer, so both precision modes produce the same logical element
count and the same logical values up to the conversion; the element widths
are 16 bytes for full-precision `float4` and 8 for `half4`. -/
theorem claim2_precision_modes {α β : Type} [Zero α] [Zero β] (r : α → β)
    (t : TensorOHWI α) (bz : Nat) (hr : r 0 = 0) :
    RearrangeWeightsToOHWIOGroupI4O4 (mapTensor r t) bz
      = List.map (map4 r) (RearrangeWeightsToOHWIOGroupI4O4 t bz)
    ∧ (RearrangeWeightsToOHWIOGroupI4O4 (mapTensor r t) bz).length
        = (RearrangeWeightsToOHWIOGroupI4O4 t bz).length
    ∧ float4_size (f32_weights CalculationsPrecision.F32) = 16
    ∧ float4_size (f32_weights CalculationsPrecision.F16) = 8 := by
  have key : RearrangeWeightsToOHWIOGroupI4O4 (mapTensor r t) bz
      = List.map (map4 r) (RearrangeWeightsToOHWIOGroupI4O4 t bz) := by
    unfold RearrangeWeightsToOHWIOGroupI4O4
    rw [List.map_ofFn]
    refine congrArg List.ofFn (funext fun e => ?_)
    show float4Pack (mapTensor r t) _ _ _ _ _ = map4 r (float4Pack t _ _ _ _ _)
    unfold float4Pack map4
    have hA : dstDepthAligned (mapTensor r t) bz = dstDepthAligned t bz := rfl
    have hS : srcDepthOf (mapTensor r t) = srcDepthOf t := rfl
    have hW : (mapTensor r t).w = t.w := rfl
    simp only [weightLane_map r hr t, hA, hS, hW]
  refine ⟨key, ?_, by decide, by decide⟩
  rw [key, List.length_map]

/-- Witness for C2 at the concrete tensor `w5114`, block size 4 and the
zero-preserving conversion `negConv`. -/
theorem claim2_witness :
    negConv 0 = 0
    ∧ RearrangeWeightsToOHWIOGroupI4O4 (mapTensor negConv w5114) 4
        = List.map (map4 negConv) (RearrangeWeightsToOHWIOGroupI4O4 w5114 4) :=
  ⟨by decide, (claim2_precision_modes negConv w5114 4 (by decide)).1⟩

/-- C3 counterexample: the claim says the bias buffer's aligned length is
`roundUp(O, blockSize.outputChannel)`, but `UploadData` passes
`aligned_size = weights.shape.o` with no block-size dependence: at `O = 5`
with output-channel block size 4 the buffer has 5 entries, not
`AlignByN 5 4 = 8`. -/
theorem claim3_counterexample :
    (UploadDataBias w5114 5 bias5).length = 5
    ∧ AlignByN 5 4 = 8
    ∧ (UploadDataBias w5114 5 bias5).length ≠ AlignByN 5 4 := by
  decide

/-- C3 amended: bias packing copies one bias value per output channel into a
linear buffer of length `O` (the weight tensor's output-channel count, the
`aligned_size` the header passes), zero-filled past the bias vector's own
length; the data type is `FLOAT16` exactly when the weights use reduced
precision. -/
theorem claim3_amended_bias_packing {α : Type} [Zero α] (t : TensorOHWI α)
    (n : Nat) (bias : Nat → α) :
    (UploadDataBias t n bias).length = t.o
    ∧ (∀ j : Fin t.o, (UploadDataBias t n bias).getD j.val 0
        = if j.val < n then bias j.val else 0)
    ∧ (∀ p : CalculationsPrecision,
        biasDataType p = DataType.FLOAT16 ↔ f32_weights p = false) := by
  refine ⟨?_, ?_, ?_⟩
  · unfold UploadDataBias CreateLinearStorage
    exact List.length_ofFn _
  · intro j
    have hlen : (UploadDataBias t n bias).length = t.o := by
      unfold UploadDataBias CreateLinearStorage
      exact List.length_ofFn _
    have hlt : j.val < (UploadDataBias t n bias).length := by
      rw [hlen]; exact j.isLt
    rw [List.getD_eq_getElem _ _ hlt]
    unfold UploadDataBias CreateLinearStorage
    rw [List.getElem_ofFn]
  · intro p
    cases p <;> simp [biasDataType, f32_weights]

/-- C4: in every packed buffer, each position whose output-channel source
index lies at or beyond `dstDepth*4` (the alignment padding) holds zero, and
every in-range source element `(o, y, x, i)` is reproduced at the documented
remapped position `(y, x, i/4, o/4, i%4, o%4)`. -/
theorem claim4_padding_and_remap {α : Type} [Zero α] (t : TensorOHWI α)
    (bz y x : Nat) (hbz : 0 < bz) (hy : y < t.h) (hx : x < t.w) :
    (∀ sg og il ol : Nat, sg < srcDepthOf t → og < dstDepthAligned t bz →
      il < 4 → ol < 4 → dstDepthOf t * 4 ≤ og * 4 + ol →
      scalarAt t bz y x sg og il ol = 0)
    ∧ (∀ o i : Nat, o < t.o → i < t.i →
      scalarAt t bz y x (i / 4) (o / 4) (i % 4) (o % 4) = t.data o y x i) := by
  constructor
  · intro sg og il ol hsg hog hil hol hpad
    rw [scalarAt_eq t bz y x sg og il ol hy hx hsg hog hil,
      tuple4Get_float4Pack t y x sg og il ol hol]
    unfold weightLane
    have hO : t.o ≤ dstDepthOf t * 4 := le_roundUp t.o 4 (by omega)
    have hc : ¬(sg * 4 + il < t.i ∧ og * 4 + ol < t.o) := by
      intro hcon
      omega
    rw [if_neg hc]
  · intro o i ho hi
    have hsg : i / 4 < srcDepthOf t := by
      unfold srcDepthOf IntegralDivideRoundUp
      omega
    have hdg : o / 4 < dstDepthOf t := by
      unfold dstDepthOf IntegralDivideRoundUp
      omega
    have hog : o / 4 < dstDepthAligned t bz :=
      Nat.lt_of_lt_of_le hdg (le_roundUp (dstDepthOf t) bz hbz)
    rw [scalarAt_eq t bz y x (i / 4) (o / 4) (i % 4) (o % 4) hy hx hsg hog
        (Nat.mod_lt i (by omega)),
      tuple4Get_float4Pack t y x (i / 4) (o / 4) (i % 4) (o % 4)
        (Nat.mod_lt o (by omega))]
    unfold weightLane
    have hi4 : i / 4 * 4 + i % 4 = i := by omega
    have ho4 : o / 4 * 4 + o % 4 = o := by omega
    rw [hi4, ho4, if_pos ⟨hi, ho⟩]

/-- Witness for C4 at the concrete tensor `w5114` with block size 4: the
padding lane for output channel 8 is zero and the source element
`(o = 2, i = 1)` is reproduced. -/
theorem claim4_witness :
    0 < 4 ∧ 0 < w5114.h ∧ 0 < w5114.w
    ∧ scalarAt w5114 4 0 0 0 2 0 0 = 0
    ∧ scalarAt w5114 4 0 0 (1 / 4) (2 / 4) (1 % 4) (2 % 4) = w5114.data 2 0 0 1 := by
  refine ⟨by decide, by decide, by decide, ?_, ?_⟩
  · exact (claim4_padding_and_remap w5114 4 0 0 (by decide) (by decide) (by decide)).1
      0 2 0 0 (by decide) (by decide) (by decide) (by decide) (by decide)
  · exact (claim4_padding_and_remap w5114 4 0 0 (by decide) (by decide) (by decide)).2
      2 1 (by decide) (by decide)

/-- C5 counterexample: at O=8, H=3, W=3, I=4 with output-channel block size 4,
`dst_depth = 2` but `AlignByN(2, 4) = 4`, not 2, and the packed buffer has
`3*3*1*4*4 = 144` elements, not 72 as the claim states. -/
theorem claim5_counterexample :
    dstDepthOf w8334 = 2
    ∧ dstDepthAligned w8334 4 = 4
    ∧ dstDepthAligned w8334 4 ≠ 2
    ∧ (RearrangeWeightsToOHWIOGroupI4O4 w8334 4).length = 144
    ∧ (RearrangeWeightsToOHWIOGroupI4O4 w8334 4).length ≠ 72 := by
  have hlen : (RearrangeWeightsToOHWIOGroupI4O4 w8334 4).length = elementsCount w8334 4 :=
    rearrange_length w8334 4
  refine ⟨by decide, by decide, by decide, ?_, ?_⟩
  · rw [hlen]; decide
  · rw [hlen]; decide

/-- C5 amended: at O=8, H=3, W=3, I=4 with output-channel block size 4,
`dstDepth = 2`, `srcDepth = 1`, `alignedDstDepth = AlignByN(2,4) = 4`, and the
packed buffer has `3*3*1*4*4 = 144` elements. -/
theorem claim5_amended_scenario :
    dstDepthOf w8334 = 2
    ∧ srcDepthOf w8334 = 1
    ∧ dstDepthAligned w8334 4 = 4
    ∧ (RearrangeWeightsToOHWIOGroupI4O4 w8334 4).length = 3 * 3 * 1 * 4 * 4 := by
  have hlen : (RearrangeWeightsToOHWIOGroupI4O4 w8334 4).length = elementsCount w8334 4 :=
    rearrange_length w8334 4
  refine ⟨by decide, by decide, by decide, ?_⟩
  rw [hlen]; decide

/-- C6 counterexample: at O=5 with output-channel block size 4,
`dst_depth = 2` but the aligned depth is `AlignByN(2, 4) = 4`, not 2 as the
claim states. -/
theorem claim6_counterexample :
    dstDepthOf w5114 = 2
    ∧ dstDepthAligned w5114 4 = 4
    ∧ dstDepthAligned w5114 4 ≠ 2 := by
  decide

/-- C6 amended: at O=5 with output-channel block size 4, `dstDepth = 2` and
`alignedDstDepth = 4`; at every input lane (`srcDepth = 1`, so `sg = 0` and
`il` ranges over all four input channels), every packed-buffer lane addressing
an output channel at or beyond the true count 5 (the padding lanes, channels
5..15) is zero while channels 0..4 carry the source values — this enumerates
the whole packed buffer — and the packed bias buffer has exactly the 5 true
bias values with no padding lanes. -/
theorem claim6_amended_scenario :
    dstDepthOf w5114 = 2
    ∧ dstDepthAligned w5114 4 = 4
    ∧ srcDepthOf w5114 = 1
    ∧ (∀ il : Fin 4, ∀ ch : Fin 16,
        scalarAt w5114 4 0 0 0 (ch.val / 4) il.val (ch.val % 4)
          = if ch.val < 5 then w5114.data ch.val 0 0 il.val else 0)
    ∧ (UploadDataBias w5114 5 bias5).length = 5
    ∧ (∀ j : Fin 5, (UploadDataBias w5114 5 bias5).getD j.val 0 = bias5 j.val) := by
  decide

/-- C7 counterexample: when the weight buffer allocation succeeds but the
bias linear-storage creation fails, `UploadData` returns the error yet the
`weights_` field has already changed, so the operation does not remain in its
prior state. -/
theorem claim7_counterexample :
    UploadDataStep (some ()) (none : Option Unit)
        ({ weights := none, biases := none } : ConvPowerVRState Unit Unit)
      = (UploadStatus.allocationError, { weights := some (), biases := none })
    ∧ (UploadDataStep (some ()) (none : Option Unit)
        ({ weights := none, biases := none } : ConvPowerVRState Unit Unit)).2
      ≠ ({ weights := none, biases := none } : ConvPowerVRState Unit Unit) := by
  decide

/-- C7 amended: an allocation failure leaves the operation in the last
successfully reached state: if the weight buffer creation fails, `UploadData`
returns the error and no field changes; if the bias storage creation fails
after a successful weight upload, `UploadData` returns the error with only the
`weights_` field updated and `biases_` unchanged. -/
theorem claim7_amended_failure_semantics {β γ : Type} (b : β)
    (bAlloc : Option γ) (s : ConvPowerVRState β γ) :
    UploadDataStep (none : Option β) bAlloc s = (UploadStatus.allocationError, s)
    ∧ UploadDataStep (some b) (none : Option γ) s
      = (UploadStatus.allocationError, { s with weights := some b }) := by
  constructor
  · rfl
  · rfl

/-- C8: tiling-configuration selection is deterministic: for equal device
capabilities, operation definitions and problem shapes, both the convolution
and the fully-connected selector return identical `ConvParams` values. -/
theorem claim8_selector_deterministic (d1 d2 : CLDevice) (f1 f2 : OperationDef)
    (a1 a2 : Convolution2DAttributes) (b1 b2 : FullyConnectedAttributes)
    (hd : d1 = d2) (hf : f1 = f2) (ha : a1 = a2) (hb : b1 = b2) :
    GuessBestParamsConv d1 f1 a1 = GuessBestParamsConv d2 f2 a2
    ∧ GuessBestParamsFullyConnected d1 f1 b1
      = GuessBestParamsFullyConnected d2 f2 b2 := by
  subst hd; subst hf; subst ha; subst hb
  exact ⟨rfl, rfl⟩

/-- Witness for C8 at a concrete device, definition and shapes. -/
theorem claim8_witness :
    demoDevice = demoDevice ∧ demoDef = demoDef
    ∧ demoConvAttr = demoConvAttr ∧ demoFCAttr = demoFCAttr
    ∧ (GuessBestParamsConv demoDevice demoDef demoConvAttr
        = GuessBestParamsConv demoDevice demoDef demoConvAttr
      ∧ GuessBestParamsFullyConnected demoDevice demoDef demoFCAttr
        = GuessBestParamsFullyConnected demoDevice demoDef demoFCAttr) :=
  ⟨rfl, rfl, rfl, rfl,
    claim8_selector_deterministic demoDevice demoDevice demoDef demoDef
      demoConvAttr demoConvAttr demoFCAttr demoFCAttr rfl rfl rfl rfl⟩

/-- C9: for every output extent and every tiling config with positive block
and work-group components, the dispatch grid multiplied out by the block size
covers at least the true output width, height and channel depth, and each
grid axis is a whole multiple of the corresponding work-group component. -/
theorem claim9_grid_covers_output (dstW dstH dstD : Nat) (p : ConvParams)
    (hbx : 0 < p.block_size.x) (hby : 0 < p.block_size.y) (hbz : 0 < p.block_size.z)
    (hwx : 0 < p.work_group_size.x) (hwy : 0 < p.work_group_size.y)
    (hwz : 0 < p.work_group_size.z) :
    (dstW ≤ (GetGridSize dstW dstH dstD p).x * p.block_size.x
      ∧ dstH ≤ (GetGridSize dstW dstH dstD p).y * p.block_size.y
      ∧ dstD ≤ (GetGridSize dstW dstH dstD p).z * p.block_size.z)
    ∧ ((GetGridSize dstW dstH dstD p).x % p.work_group_size.x = 0
      ∧ (GetGridSize dstW dstH dstD p).y % p.work_group_size.y = 0
      ∧ (GetGridSize dstW dstH dstD p).z % p.work_group_size.z = 0) := by
  have cover : ∀ e b wgs : Nat, 0 < b → 0 < wgs →
      e ≤ AlignByN (IntegralDivideRoundUp e b) wgs * b := by
    intro e b wgs hb hwgs
    have h1 : e ≤ IntegralDivideRoundUp e b * b := le_roundUp e b hb
    have h2 : IntegralDivideRoundUp e b ≤ AlignByN (IntegralDivideRoundUp e b) wgs :=
      le_roundUp (IntegralDivideRoundUp e b) wgs hwgs
    exact Nat.le_trans h1 (Nat.mul_le_mul_right b h2)
  exact ⟨⟨cover dstW p.block_size.x p.work_group_size.x hbx hwx,
          cover dstH p.block_size.y p.work_group_size.y hby hwy,
          cover dstD p.block_size.z p.work_group_size.z hbz hwz⟩,
         roundUp_mod _ _, roundUp_mod _ _, roundUp_mod _ _⟩

/-- Witness for C9 at the concrete extents (5, 3, 7) and `demoParams`. -/
theorem claim9_witness :
    (0 < demoParams.block_size.x ∧ 0 < demoParams.block_size.y
      ∧ 0 < demoParams.block_size.z ∧ 0 < demoParams.work_group_size.x
      ∧ 0 < demoParams.work_group_size.y ∧ 0 < demoParams.work_group_size.z)
    ∧ ((5 ≤ (GetGridSize 5 3 7 demoParams).x * demoParams.block_size.x
        ∧ 3 ≤ (GetGridSize 5 3 7 demoParams).y * demoParams.block_size.y
        ∧ 7 ≤ (GetGridSize 5 3 7 demoParams).z * demoParams.block_size.z)
      ∧ ((GetGridSize 5 3 7 demoParams).x % demoParams.work_group_size.x = 0
        ∧ (GetGridSize 5 3 7 demoParams).y % demoParams.work_group_size.y = 0
        ∧ (GetGridSize 5 3 7 demoParams).z % demoParams.work_group_size.z = 0)) :=
  ⟨⟨by decide, by decide, by decide, by decide, by decide, by decide⟩,
    claim9_grid_covers_output 5 3 7 demoParams (by decide) (by decide) (by decide)
      (by decide) (by decide) (by decide)⟩

/-- C10: reduced 16-bit storage is chosen exactly for `F16` calculation
precision: under the mixed `F32_F16` mode the weights stay 32-bit
(`f32_weights` true, element width 16 bytes) and the bias data type stays
`FLOAT32`, identical to the pure `F32` mode. -/
theorem claim10_f32_f16_uses_full_storage :
    (f32_weights CalculationsPrecision.F32 = true
      ∧ f32_weights CalculationsPrecision.F32_F16 = true
      ∧ f32_weights CalculationsPrecision.F16 = false)
    ∧ (biasDataType CalculationsPrecision.F32 = DataType.FLOAT32
      ∧ biasDataType CalculationsPrecision.F32_F16 = DataType.FLOAT32
      ∧ biasDataType CalculationsPrecision.F16 = DataType.FLOAT16)
    ∧ f32_weights CalculationsPrecision.F32_F16 = f32_weights CalculationsPrecision.F32
    ∧ biasDataType CalculationsPrecision.F32_F16 = biasDataType CalculationsPrecision.F32
    ∧ float4_size (f32_weights CalculationsPrecision.F32_F16) = 16 := by
  decide
